import Mathlib

/-!
Verification of `tap_personio/auth.py` (PersonioAuthenticator).

The Python code is shallowly embedded below.  JSON values are an inductive
type; the attributes of the authenticator instance that `update_access_token`
mutates (`access_token`, `expires_in`, `last_refreshed`) form the
`TokenState` structure; the exceptions the code can raise form `PyError`;
the observable side effects (the single `utc_now()` read, the HTTP POST and
the log calls) are recorded as a list of `Event`s in program order, so that
statements about call counts and about when the clock is read relative to
the POST are real theorems.
-/

set_option autoImplicit false

namespace TapPersonio

/-- JSON values as returned by `requests.Response.json()`; `null` doubles as
the Python `None`. Objects are association lists of parsed dictionaries
(no duplicate keys after parsing). -/
inductive Json where
  | null
  | bool (b : Bool)
  | num (n : Int)
  | str (s : String)
  | obj (fields : List (String × Json))
deriving Repr

/-- The Python exceptions reachable from `update_access_token`.
`runtimeError` embeds the `RuntimeError` raised at auth.py line 45; its
message interpolates the parsed response body and the `HTTPError` (which
carries the status code), so the constructor carries both. -/
inductive PyError where
  | runtimeError (status : Nat) (body : Json)
  | jsonDecodeError
  | keyError (key : String)
  | typeError
  | attributeError
deriving Repr

/-- An HTTP response as seen through the `requests` API: a status code and
the result of `.json()` — `none` models a body that is not valid JSON, in
which case `.json()` raises `JSONDecodeError`. -/
structure Response where
  status : Nat
  json : Option Json

/-- `j[k]`, Python `__getitem__`: `KeyError` when the key is missing from a
dict, `TypeError` when string-indexing a non-dict. -/
def Json.item : Json → String → Except PyError Json
  | .obj fields, k =>
      match fields.lookup k with
      | some v => Except.ok v
      | none => Except.error (PyError.keyError k)
  | _, _ => Except.error PyError.typeError

/-- `j.get(k, dflt)`, Python `dict.get`: the stored value (even an explicit
`null`) when the key is present, the default otherwise; `AttributeError`
when the receiver is not a dict. -/
def Json.dictGet : Json → String → Json → Except PyError Json
  | .obj fields, k, dflt => Except.ok ((fields.lookup k).getD dflt)
  | _, _, _ => Except.error PyError.attributeError

/-- Python optional int (`default_expiration`) as the JSON/Python value it
is stored as. -/
def jsonOfOptInt : Option Int → Json
  | none => Json.null
  | some n => Json.num n

/-- `x is None` for embedded Python values. -/
def Json.isNull : Json → Bool
  | .null => true
  | _ => false

/-- The mutable token attributes of the authenticator instance.  All three
start as Python `None` (for `last_refreshed` we keep `Option Nat`, since it
holds a datetime, not a JSON value). -/
structure TokenState where
  access_token : Json
  expires_in : Json
  last_refreshed : Option Nat
deriving Repr

/-- The empty initial token state of a freshly constructed authenticator. -/
def emptyState : TokenState :=
  { access_token := Json.null, expires_in := Json.null, last_refreshed := none }

/-- Caller-supplied credentials from the stream configuration. -/
structure Config where
  client_id : String
  client_secret : String
deriving Repr, DecidableEq

/-- The immutable part of a constructed authenticator: its config and the
constructor arguments `auth_endpoint`, `oauth_scopes`, `default_expiration`. -/
structure Authenticator where
  config : Config
  auth_endpoint : String
  oauth_scopes : String
  default_expiration : Option Int
deriving Repr, DecidableEq

/-- Observable effects of `update_access_token`, in program order. -/
inductive Event where
  | utcNow (t : Nat)
  | httpPost (url : String) (body : List (String × String)) (timeout : Nat)
  | logInfo (msg : String)
  | logDebug (msg : String)
deriving Repr, DecidableEq

/-- Whether an event is an outbound network call. -/
def Event.isPost : Event → Bool
  | .httpPost _ _ _ => true
  | _ => false

/-- Whether an event is a clock read. -/
def Event.isClockRead : Event → Bool
  | .utcNow _ => true
  | _ => false

/-- `oauth_request_body` (auth.py lines 16-25): exactly `client_id` and
`client_secret`, no scope parameter. -/
def oauth_request_body (auth : Authenticator) : List (String × String) :=
  [("client_id", auth.config.client_id),
   ("client_secret", auth.config.client_secret)]

/-- `oauth_request_payload`: the base library forwards `oauth_request_body`
unchanged for non-JWT authenticators. -/
def oauth_request_payload (auth : Authenticator) : List (String × String) :=
  oauth_request_body auth

/-- `requests.Response.raise_for_status` raises `HTTPError` exactly for
status codes 400-599 (4xx client errors and 5xx server errors); 1xx, 2xx
and 3xx do not raise. -/
def raiseForStatusFails (status : Nat) : Bool :=
  decide (400 ≤ status) && decide (status < 600)

/-- The info log message at auth.py line 47. -/
def successLogMsg : String := "OAuth authorization attempt was successful."

/-- The debug log message at auth.py lines 53-57 (typo as in the source). -/
def neverExpiresLogMsg : String :=
  "No expires_in receied in OAuth response and no default_expiration set. Token will be treated as if it never expires."

/-- `update_access_token` (auth.py lines 28-58), embedded as a function of
the instance state, the current clock value `now` (the single `utc_now()`
call at line 34) and the HTTP response the POST returns.  The result is the
token state after the call, the exception raised (`none` on success) and
the list of observable effects in program order. -/
def update_access_token (auth : Authenticator) (st : TokenState) (now : Nat)
    (resp : Response) : TokenState × Option PyError × List Event :=
  let request_time := now
  let auth_request_payload := oauth_request_payload auth
  let trace : List Event :=
    [Event.utcNow request_time,
     Event.httpPost auth.auth_endpoint auth_request_payload 60]
  if raiseForStatusFails resp.status then
    -- raise_for_status raised; the except block re-reads token_response.json()
    match resp.json with
    | none => (st, some PyError.jsonDecodeError, trace)
    | some body => (st, some (PyError.runtimeError resp.status body), trace)
  else
    let trace := trace ++ [Event.logInfo successLogMsg]
    match resp.json with
    | none => (st, some PyError.jsonDecodeError, trace)
    | some token_json =>
      match token_json.item "data" with
      | Except.error e => (st, some e, trace)
      | Except.ok data =>
        match data.item "token" with
        | Except.error e => (st, some e, trace)
        | Except.ok tok =>
          let st := { st with access_token := tok }
          match token_json.dictGet "expires_in" (jsonOfOptInt auth.default_expiration) with
          | Except.error e => (st, some e, trace)
          | Except.ok exp =>
            let st := { st with expires_in := exp }
            let trace := if exp.isNull then
                trace ++ [Event.logDebug neverExpiresLogMsg]
              else trace
            let st := { st with last_refreshed := some request_time }
            (st, none, trace)

/-- `create_for_stream` (auth.py lines 62-75): fixed endpoint, empty scope
string, and no `default_expiration` argument (so it stays `None`). -/
def create_for_stream (config : Config) : Authenticator :=
  { config := config
  , auth_endpoint := "https://api.personio.de/v1/auth"
  , oauth_scopes := ""
  , default_expiration := none }

/-- Modelled from the spec: `isValid` of the TokenProvider contract.  The
implementation lives in the external base library, not in this repository.
Spec: token valid iff `access_token` is present and, when `expires_in` is
present, `now < last_refreshed + expires_in`; an absent `expires_in` means
the token never expires once fetched. -/
def isValid (st : TokenState) (now : Nat) : Bool :=
  !st.access_token.isNull &&
    match st.expires_in, st.last_refreshed with
    | Json.num e, some lr => decide ((now : Int) < (lr : Int) + e)
    | _, _ => true

/-- Modelled from the spec: `getToken` of the TokenProvider contract (the
implementation lives in the external base library, not in this repository).
Spec: return the cached `access_token` when `isValid()`, otherwise perform
one synchronous refresh (the `update_access_token` of this repository) and
return the refreshed token; fail iff the refresh fails.  `resp` is the
response the network returns when a refresh is actually performed. -/
def getToken (auth : Authenticator) (st : TokenState) (now : Nat)
    (resp : Response) : Except PyError (Json × TokenState) × List Event :=
  if isValid st now then
    (Except.ok (st.access_token, st), [])
  else
    match update_access_token auth st now resp with
    | (st2, none, tr) => (Except.ok (st2.access_token, st2), tr)
    | (_, some e, tr) => (Except.error e, tr)

/-- Modelled from the spec: the singleton-by-config construction policy
(the `SingletonMeta` metaclass lives in the external base library, not in
this repository; the source comment at auth.py lines 10-12 says it makes
streams reuse the same authenticator instance).  A registry maps each
configuration to the instance constructed for it. -/
structure Registry where
  entries : List (Config × Nat)
  nextId : Nat

/-- Modelled from the spec: look a configuration up in the registry. -/
def findInstance : List (Config × Nat) → Config → Option Nat
  | [], _ => none
  | (c, i) :: rest, cfg => if c = cfg then some i else findInstance rest cfg

/-- Modelled from the spec: constructing the authenticator returns the
already-registered instance for this configuration when there is one, and
otherwise registers a fresh instance. -/
def constructAuthenticator (r : Registry) (cfg : Config) : Nat × Registry :=
  match findInstance r.entries cfg with
  | some i => (i, r)
  | none => (r.nextId, ⟨r.entries ++ [(cfg, r.nextId)], r.nextId + 1⟩)

/-! ### Concrete fixtures used by witnesses and counterexamples -/

/-- Example configuration. -/
def cfg0 : Config := { client_id := "id", client_secret := "secret" }

/-- Authenticator as built by `create_for_stream` for `cfg0`. -/
def auth0 : Authenticator := create_for_stream cfg0

/-- `auth0` with a configured default expiration of 86400 seconds. -/
def auth1 : Authenticator := { auth0 with default_expiration := some 86400 }

/-- A token state left over from an earlier successful refresh. -/
def statePrior : TokenState :=
  { access_token := Json.str "OLD", expires_in := Json.num 100, last_refreshed := some 1 }

/-- A well-formed success body: `data.token = "T"`, top-level `expires_in = 3600`. -/
def bodyOK : Json :=
  Json.obj [("data", Json.obj [("token", Json.str "T")]), ("expires_in", Json.num 3600)]

/-- A 200 response with the well-formed body. -/
def respOK : Response := { status := 200, json := some bodyOK }

/-- A 200 response whose body has `data.token` but no `expires_in` key. -/
def respNoExp : Response :=
  { status := 200, json := some (Json.obj [("data", Json.obj [("token", Json.str "T")])]) }

/-- A 200 response whose body carries an explicit `"expires_in": null`. -/
def respNullExp : Response :=
  { status := 200,
    json := some (Json.obj [("data", Json.obj [("token", Json.str "T")]),
                            ("expires_in", Json.null)]) }

/-- A 201 response whose body has a decoy top-level `access_token` next to
the real nested `data.token`. -/
def respDecoy : Response :=
  { status := 201,
    json := some (Json.obj [("access_token", Json.str "WRONG"),
                            ("data", Json.obj [("token", Json.str "T")]),
                            ("expires_in", Json.num 3600)]) }

/-! ### Helper lemmas -/

/-- `__getitem__` succeeds exactly on a dict that has the key. -/
theorem Json.item_ok_iff (j : Json) (k : String) (v : Json) :
    j.item k = Except.ok v ↔ ∃ fs, j = Json.obj fs ∧ fs.lookup k = some v := by
  cases j <;> simp [Json.item]
  case obj fs =>
    cases hfs : fs.lookup k <;> simp [hfs]

/-- Characterisation of a successful `update_access_token`: the status did
not trigger `raise_for_status`, the body is a dict with a dict under
`"data"` holding a `"token"`, and the resulting state is built from the
response, the configured default expiration and the request time alone. -/
theorem update_success_spec (auth : Authenticator) (st : TokenState) (now : Nat)
    (resp : Response) (st2 : TokenState) (tr : List Event)
    (h : update_access_token auth st now resp = (st2, none, tr)) :
    raiseForStatusFails resp.status = false
    ∧ ∃ fs ds tok,
        resp.json = some (Json.obj fs)
        ∧ fs.lookup "data" = some (Json.obj ds)
        ∧ ds.lookup "token" = some tok
        ∧ st2 = { access_token := tok,
                  expires_in := (fs.lookup "expires_in").getD (jsonOfOptInt auth.default_expiration),
                  last_refreshed := some now } := by
  simp only [update_access_token] at h
  split at h
  next hfail =>
    split at h <;> simp at h
  next hfail =>
    split at h
    · simp at h
    next token_json hjson =>
      split at h
      · simp at h
      next data hdata =>
        split at h
        · simp at h
        next tok htok =>
          obtain ⟨fs, hfs, hlook⟩ := (Json.item_ok_iff _ _ _).mp hdata
          obtain ⟨ds, hds, hlook2⟩ := (Json.item_ok_iff _ _ _).mp htok
          subst hfs
          split at h
          next e hget => simp [Json.dictGet] at hget
          next exp hget =>
            simp [Json.dictGet] at hget
            refine ⟨Bool.not_eq_true _ ▸ hfail, fs, ds, tok, hjson, hds ▸ hlook, hlook2, ?_⟩
            split at h <;>
              · obtain ⟨h1, _, _⟩ := Prod.mk.injEq .. ▸ h
                simp [← h1, ← hget]

/-- On any raised exception, `update_access_token` leaves the token state
exactly as it was: no partial mutation survives an error. -/
theorem update_error_frame (auth : Authenticator) (st : TokenState) (now : Nat)
    (resp : Response) (st2 : TokenState) (e : PyError) (tr : List Event)
    (h : update_access_token auth st now resp = (st2, some e, tr)) : st2 = st := by
  simp only [update_access_token] at h
  split at h
  next hfail =>
    split at h <;> · obtain ⟨h1, _⟩ := Prod.mk.injEq .. ▸ h; exact h1.symm
  next hfail =>
    split at h
    · obtain ⟨h1, _⟩ := Prod.mk.injEq .. ▸ h; exact h1.symm
    next token_json hjson =>
      split at h
      · obtain ⟨h1, _⟩ := Prod.mk.injEq .. ▸ h; exact h1.symm
      next data hdata =>
        split at h
        · obtain ⟨h1, _⟩ := Prod.mk.injEq .. ▸ h; exact h1.symm
        next tok htok =>
          obtain ⟨fs, hfs, hlook⟩ := (Json.item_ok_iff _ _ _).mp hdata
          subst hfs
          split at h
          next e2 hget => simp [Json.dictGet] at hget
          next exp hget =>
            split at h <;> simp at h

/-- On every path through `update_access_token`, the observable trace is
the single clock read followed by the single POST, followed only by log
events. -/
theorem update_trace_shape (auth : Authenticator) (st : TokenState) (now : Nat)
    (resp : Response) :
    ∃ suffix : List Event,
      (update_access_token auth st now resp).2.2
        = Event.utcNow now
            :: Event.httpPost auth.auth_endpoint (oauth_request_payload auth) 60
            :: suffix
      ∧ ∀ e ∈ suffix, e.isPost = false ∧ e.isClockRead = false := by
  simp only [update_access_token]
  split
  · split
    · exact ⟨[], rfl, by simp⟩
    · exact ⟨[], rfl, by simp⟩
  · split
    · exact ⟨[Event.logInfo _], rfl, by simp [Event.isPost, Event.isClockRead]⟩
    · split
      · exact ⟨[Event.logInfo _], rfl, by simp [Event.isPost, Event.isClockRead]⟩
      · split
        · exact ⟨[Event.logInfo _], rfl, by simp [Event.isPost, Event.isClockRead]⟩
        · split
          · exact ⟨[Event.logInfo _], rfl, by simp [Event.isPost, Event.isClockRead]⟩
          · split
            · exact ⟨[Event.logInfo _, Event.logDebug _], rfl,
                by simp [Event.isPost, Event.isClockRead]⟩
            · exact ⟨[Event.logInfo _], rfl, by simp [Event.isPost, Event.isClockRead]⟩

/-- Forward evaluation of `update_access_token` on the success conditions:
for ANY prior token state the call returns the same fully rebuilt state,
no exception, and the same trace. -/
theorem update_success_eval (auth : Authenticator) (st : TokenState) (now : Nat)
    (resp : Response) (fs ds : List (String × Json)) (tok : Json)
    (hrs : raiseForStatusFails resp.status = false)
    (hjson : resp.json = some (Json.obj fs))
    (hdata : fs.lookup "data" = some (Json.obj ds))
    (htok : ds.lookup "token" = some tok) :
    update_access_token auth st now resp
      = ({ access_token := tok,
           expires_in := (fs.lookup "expires_in").getD (jsonOfOptInt auth.default_expiration),
           last_refreshed := some now }, none,
         [Event.utcNow now,
          Event.httpPost auth.auth_endpoint (oauth_request_payload auth) 60,
          Event.logInfo successLogMsg]
           ++ if ((fs.lookup "expires_in").getD (jsonOfOptInt auth.default_expiration)).isNull
              then [Event.logDebug neverExpiresLogMsg] else []) := by
  simp only [update_access_token, hrs, Bool.false_eq_true, if_false, hjson,
    Json.item, hdata, htok, Json.dictGet]
  split <;> simp

/-! ### C1 -/

/-- C1 counterexample. The claim says every non-2xx response makes the
refresh fail with AuthError and mutate nothing.  At status 300 (non-2xx)
with a well-formed token body the call instead succeeds and stores the
token, because `raise_for_status` only raises for 4xx/5xx; and at status
401 with a body that is not JSON the call fails with a raw JSON-decode
error rather than the AuthError. -/
theorem C1_counterexample :
    (update_access_token auth0 emptyState 5
        { status := 300,
          json := some (Json.obj [("data", Json.obj [("token", Json.str "T")])]) }).2.1
      = none
    ∧ (update_access_token auth0 emptyState 5
        { status := 300,
          json := some (Json.obj [("data", Json.obj [("token", Json.str "T")])]) }).1.access_token
      = Json.str "T"
    ∧ (update_access_token auth0 emptyState 5 { status := 401, json := none }).2.1
      = some PyError.jsonDecodeError :=
  ⟨rfl, rfl, rfl⟩

/-- C1 (amended): for every refresh whose response status is 400-599, the
call fails — with the AuthError (`RuntimeError`) carrying the response
body and the status when the body parses as JSON, and with a raw
JSON-decode error otherwise — and in either case no field of the token
state is mutated. -/
theorem C1_update_failure_behaviour (auth : Authenticator) (st st2 : TokenState)
    (now : Nat) (resp : Response) (err : Option PyError) (tr : List Event)
    (h : update_access_token auth st now resp = (st2, err, tr))
    (h4 : 400 ≤ resp.status) (h6 : resp.status < 600) :
    st2 = st
    ∧ (∀ body, resp.json = some body → err = some (PyError.runtimeError resp.status body))
    ∧ (resp.json = none → err = some PyError.jsonDecodeError) := by
  have hrs : raiseForStatusFails resp.status = true := by
    simp [raiseForStatusFails, h4, h6]
  simp only [update_access_token, hrs, if_true] at h
  cases hj : resp.json with
  | none =>
      rw [hj] at h
      simp only [Prod.mk.injEq] at h
      obtain ⟨h1, h2, _⟩ := h
      refine ⟨h1.symm, fun b hb => ?_, fun _ => h2.symm⟩
      simp at hb
  | some body =>
      rw [hj] at h
      simp only [Prod.mk.injEq] at h
      obtain ⟨h1, h2, _⟩ := h
      refine ⟨h1.symm, fun b hb => ?_, fun hn => ?_⟩
      · obtain rfl : body = b := by injection hb
        exact h2.symm
      · simp at hn

/-- C1 witness: a 401 response with a JSON body leaves a previously cached
token untouched and raises the AuthError carrying that body and status. -/
theorem C1_witness :
    (update_access_token auth0 statePrior 9
        { status := 401, json := some (Json.obj [("error", Json.str "denied")]) }).1
      = statePrior
    ∧ (update_access_token auth0 statePrior 9
        { status := 401, json := some (Json.obj [("error", Json.str "denied")]) }).2.1
      = some (PyError.runtimeError 401 (Json.obj [("error", Json.str "denied")])) := by
  obtain ⟨h1, h2, -⟩ := C1_update_failure_behaviour auth0 statePrior _ 9
    { status := 401, json := some (Json.obj [("error", Json.str "denied")]) }
    _ _ rfl (by decide) (by decide)
  exact ⟨h1, h2 _ rfl⟩

/-! ### C2 -/

/-- C2: the claim (and the spec) require a 2xx response with a malformed
body or a missing `data.token` to fail with AuthError, never with a raw
parse exception.  The code violates this: a 200 response with body
`{"data": \x7b\x7d}` raises a raw `KeyError` for the missing `"token"` key,
and a 200 response whose body is not JSON raises a raw JSON-decode error.
(The prior state is still left untouched, per `update_error_frame`.) -/
theorem C2_code_bug :
    (update_access_token auth0 statePrior 3
        { status := 200, json := some (Json.obj [("data", Json.obj [])]) }).2.1
      = some (PyError.keyError "token")
    ∧ (update_access_token auth0 statePrior 3 { status := 200, json := none }).2.1
      = some PyError.jsonDecodeError :=
  ⟨rfl, rfl⟩

/-! ### C3 -/

/-- C3: every successful refresh replaces the token state atomically and
fully — on an exception nothing is mutated; on success the entire result
(token state and trace) is independent of the prior state, with all three
fields rebuilt from the response and the request time, so two refreshes in
immediate succession leave no partial merge; and the refresh makes exactly
one outbound network call. -/
theorem C3_atomic_full_replacement (auth : Authenticator) (stA stB st2 : TokenState)
    (now : Nat) (resp : Response) (err : Option PyError) (tr : List Event)
    (h : update_access_token auth stA now resp = (st2, err, tr)) :
    (∀ e, err = some e → st2 = stA)
    ∧ (err = none →
        update_access_token auth stB now resp = (st2, none, tr)
        ∧ st2.last_refreshed = some now)
    ∧ (tr.filter Event.isPost).length = 1 := by
  refine ⟨fun e he => update_error_frame auth stA now resp st2 e tr (he ▸ h),
    fun hn => ?_, ?_⟩
  · subst hn
    obtain ⟨hrs, fs, ds, tok, hjson, hdata, htok, hst⟩ :=
      update_success_spec auth stA now resp st2 tr h
    have hA := update_success_eval auth stA now resp fs ds tok hrs hjson hdata htok
    have hB := update_success_eval auth stB now resp fs ds tok hrs hjson hdata htok
    rw [h] at hA
    rw [hB, ← hA]
    exact ⟨rfl, by rw [hst]⟩
  · obtain ⟨suffix, hshape, hsuffix⟩ := update_trace_shape auth stA now resp
    rw [h] at hshape
    have htr : tr = Event.utcNow now
        :: Event.httpPost auth.auth_endpoint (oauth_request_payload auth) 60 :: suffix :=
      hshape
    have hfil : suffix.filter Event.isPost = [] := by
      refine List.filter_eq_nil_iff.mpr fun a ha => ?_
      simp [(hsuffix a ha).1]
    simp [htr, Event.isPost, hfil]

/-- C3 witness: at a concrete 200 response, the refresh from a prior state
succeeds, produces the identical result as the refresh from the empty
state, stamps `last_refreshed` with the request time, and makes one POST. -/
theorem C3_witness :
    (update_access_token auth0 statePrior 7 respOK).2.1 = none
    ∧ update_access_token auth0 emptyState 7 respOK
        = ((update_access_token auth0 statePrior 7 respOK).1, none,
           (update_access_token auth0 statePrior 7 respOK).2.2)
    ∧ (update_access_token auth0 statePrior 7 respOK).1.last_refreshed = some 7
    ∧ (((update_access_token auth0 statePrior 7 respOK).2.2).filter Event.isPost).length
        = 1 := by
  obtain ⟨-, h2, h3⟩ :=
    C3_atomic_full_replacement auth0 statePrior emptyState _ 7 respOK _ _ rfl
  obtain ⟨h2a, h2b⟩ := h2 rfl
  exact ⟨rfl, h2a, h2b, h3⟩

/-! ### C4 -/

/-- C4: the single clock read of a refresh happens before the POST is sent
(the trace starts with the one `utc_now()` read followed by the POST), and
on success `last_refreshed` is set to exactly that pre-POST request time —
never to a time observed after the response arrived, since no other clock
read exists in the trace. -/
theorem C4_last_refreshed_is_request_time (auth : Authenticator)
    (st st2 : TokenState) (now : Nat) (resp : Response) (err : Option PyError)
    (tr : List Event) (h : update_access_token auth st now resp = (st2, err, tr)) :
    tr.filter Event.isClockRead = [Event.utcNow now]
    ∧ tr.take 2 = [Event.utcNow now,
        Event.httpPost auth.auth_endpoint (oauth_request_payload auth) 60]
    ∧ (err = none → st2.last_refreshed = some now) := by
  obtain ⟨suffix, hshape, hsuffix⟩ := update_trace_shape auth st now resp
  rw [h] at hshape
  have htr : tr = Event.utcNow now
      :: Event.httpPost auth.auth_endpoint (oauth_request_payload auth) 60 :: suffix :=
    hshape
  have hfil : suffix.filter Event.isClockRead = [] := by
    refine List.filter_eq_nil_iff.mpr fun a ha => ?_
    simp [(hsuffix a ha).2]
  refine ⟨by simp [htr, Event.isClockRead, hfil], by simp [htr], fun hn => ?_⟩
  subst hn
  obtain ⟨-, fs, ds, tok, -, -, -, hst⟩ := update_success_spec auth st now resp st2 tr h
  rw [hst]

/-- C4 witness at a concrete successful refresh with request time 11. -/
theorem C4_witness :
    ((update_access_token auth0 emptyState 11 respOK).2.2).filter Event.isClockRead
      = [Event.utcNow 11]
    ∧ ((update_access_token auth0 emptyState 11 respOK).2.2).take 2
      = [Event.utcNow 11,
         Event.httpPost auth0.auth_endpoint (oauth_request_payload auth0) 60]
    ∧ (update_access_token auth0 emptyState 11 respOK).1.last_refreshed = some 11 := by
  obtain ⟨h1, h2, h3⟩ :=
    C4_last_refreshed_is_request_time auth0 emptyState _ 11 respOK _ _ rfl
  exact ⟨h1, h2, h3 rfl⟩

/-! ### C5 -/

/-- C5: on a successful refresh, `expires_in` is read from the top level of
the response body; when the key is absent it falls back to the configured
default expiration; and when that default is also absent the stored value
is `None`, upon which the (spec-modelled) validity check treats the token
as never expiring: `isValid` then only asks whether a token is present,
whatever the clock says. -/
theorem C5_expires_in_source (auth : Authenticator) (st st2 : TokenState)
    (now : Nat) (resp : Response) (fs : List (String × Json)) (tr : List Event)
    (hjson : resp.json = some (Json.obj fs))
    (h : update_access_token auth st now resp = (st2, none, tr)) :
    (∀ v, fs.lookup "expires_in" = some v → st2.expires_in = v)
    ∧ (fs.lookup "expires_in" = none →
        st2.expires_in = jsonOfOptInt auth.default_expiration
        ∧ (auth.default_expiration = none →
            st2.expires_in = Json.null
            ∧ ∀ t, isValid st2 t = !st2.access_token.isNull)) := by
  obtain ⟨-, fs2, ds, tok, hjson2, hdata, htok, hst⟩ :=
    update_success_spec auth st now resp st2 tr h
  rw [hjson] at hjson2
  obtain rfl : fs2 = fs := by
    have := Option.some.injEq .. ▸ hjson2
    injection this.symm
  constructor
  · intro v hv
    rw [hst]
    simp [hv]
  · intro hnone
    have hexp : st2.expires_in = jsonOfOptInt auth.default_expiration := by
      rw [hst]; simp [hnone]
    refine ⟨hexp, fun hdef => ?_⟩
    have hnull : st2.expires_in = Json.null := by rw [hexp, hdef]; rfl
    refine ⟨hnull, fun t => ?_⟩
    simp [isValid, hnull]

/-- C5 witness: with no configured default, a present top-level
`expires_in` of 3600 is stored as is, and an absent `expires_in` leaves
the stored value `None`, making the token valid arbitrarily far in the
future. -/
theorem C5_witness :
    (update_access_token auth0 emptyState 2 respOK).1.expires_in = Json.num 3600
    ∧ (update_access_token auth0 emptyState 2 respNoExp).1.expires_in = Json.null
    ∧ isValid (update_access_token auth0 emptyState 2 respNoExp).1 1000000000
      = !(update_access_token auth0 emptyState 2 respNoExp).1.access_token.isNull := by
  obtain ⟨h1, -⟩ :=
    C5_expires_in_source auth0 emptyState _ 2 respOK
      [("data", Json.obj [("token", Json.str "T")]), ("expires_in", Json.num 3600)] _ rfl rfl
  obtain ⟨-, h2⟩ :=
    C5_expires_in_source auth0 emptyState _ 2 respNoExp
      [("data", Json.obj [("token", Json.str "T")])] _ rfl rfl
  obtain ⟨h2a, h2b⟩ := h2 rfl
  obtain ⟨-, h2c⟩ := h2b rfl
  exact ⟨h1 _ rfl, h2a, h2c 1000000000⟩

/-! ### C6 -/

/-- C6: the access token stored by a successful refresh is exactly the
value reached through the nested path `data.token` of the response body
(dict lookups via Python `__getitem__`), not any top-level field. -/
theorem C6_token_from_nested_path (auth : Authenticator) (st st2 : TokenState)
    (now : Nat) (resp : Response) (tr : List Event)
    (h : update_access_token auth st now resp = (st2, none, tr)) :
    ∃ body data, resp.json = some body
      ∧ body.item "data" = Except.ok data
      ∧ data.item "token" = Except.ok st2.access_token := by
  obtain ⟨-, fs, ds, tok, hjson, hdata, htok, hst⟩ :=
    update_success_spec auth st now resp st2 tr h
  refine ⟨Json.obj fs, Json.obj ds, hjson, ?_, ?_⟩
  · simp [Json.item, hdata]
  · simp [Json.item, htok, hst]

/-- C6 witness: with a decoy top-level `access_token = "WRONG"` next to
`data.token = "T"`, the stored token is `"T"`, the value at the nested
path. -/
theorem C6_witness :
    (update_access_token auth0 emptyState 1 respDecoy).1.access_token = Json.str "T"
    ∧ ∃ body data, respDecoy.json = some body
        ∧ body.item "data" = Except.ok data
        ∧ data.item "token"
            = Except.ok (update_access_token auth0 emptyState 1 respDecoy).1.access_token :=
  ⟨rfl, C6_token_from_nested_path auth0 emptyState _ 1 respDecoy _ rfl⟩

/-! ### C7 -/

/-- C7: every refresh of an authenticator built by `create_for_stream`
performs exactly one POST, to the fixed endpoint
`https://api.personio.de/v1/auth`, with a 60-second timeout, and the
request body is exactly `client_id` and `client_secret` — no scope
parameter is sent.  This holds on every path, success or failure. -/
theorem C7_single_post_fixed_endpoint (cfg : Config) (st : TokenState)
    (now : Nat) (resp : Response) :
    ((update_access_token (create_for_stream cfg) st now resp).2.2).filter Event.isPost
      = [Event.httpPost "https://api.personio.de/v1/auth"
          [("client_id", cfg.client_id), ("client_secret", cfg.client_secret)] 60] := by
  obtain ⟨suffix, hshape, hsuffix⟩ :=
    update_trace_shape (create_for_stream cfg) st now resp
  have hfil : suffix.filter Event.isPost = [] := by
    refine List.filter_eq_nil_iff.mpr fun a ha => ?_
    simp [(hsuffix a ha).1]
  rw [hshape]
  simp [Event.isPost, hfil, create_for_stream, oauth_request_payload, oauth_request_body]

/-! ### C8 -/

/-- C8 counterexample.  The claim says `getToken()` fails with AuthError
iff the refresh fails.  With an empty (hence invalid) cache and a 200
response whose body is `{"data": \x7b\x7d}`, the refresh fails — but
`getToken` then surfaces the raw `KeyError`, not the AuthError, so the
"fails with AuthError" direction is false. -/
theorem C8_counterexample :
    isValid emptyState 0 = false
    ∧ (getToken auth0 emptyState 0
        { status := 200, json := some (Json.obj [("data", Json.obj [])]) }).1
      = Except.error (PyError.keyError "token") :=
  ⟨rfl, rfl⟩

/-- C8 (amended): when the cached token is valid, `getToken` returns it
with no event at all (in particular no network call); otherwise it performs
exactly one refresh — its events are exactly the refresh trace, containing
one POST — and it returns the freshly stored token when the refresh
succeeds, and fails exactly when the refresh fails, propagating whatever
error the refresh raised (the AuthError for 4xx/5xx responses with JSON
bodies, but a raw parse error in the malformed-body cases of C2). -/
theorem C8_getToken_behaviour (auth : Authenticator) (st : TokenState)
    (now : Nat) (resp : Response) :
    (isValid st now = true →
       getToken auth st now resp = (Except.ok (st.access_token, st), []))
    ∧ (isValid st now = false →
       (getToken auth st now resp).2 = (update_access_token auth st now resp).2.2
       ∧ ((getToken auth st now resp).2.filter Event.isPost).length = 1
       ∧ (∀ st2 tr, update_access_token auth st now resp = (st2, none, tr) →
            (getToken auth st now resp).1 = Except.ok (st2.access_token, st2))
       ∧ (∀ e st2 tr, update_access_token auth st now resp = (st2, some e, tr) →
            (getToken auth st now resp).1 = Except.error e)) := by
  constructor
  · intro hv
    simp [getToken, hv]
  · intro hv
    rcases hu : update_access_token auth st now resp with ⟨st2, err, tr⟩
    have htrace : (getToken auth st now resp).2 = tr := by
      cases err <;> simp [getToken, hv, hu]
    refine ⟨htrace, ?_, ?_, ?_⟩
    · rw [htrace]
      exact (C3_atomic_full_replacement auth st st st2 now resp err tr hu).2.2
    · intro st3 tr3 hu3
      have h2 : err = none := congrArg (fun p => p.2.1) hu3
      have h1 : st3 = st2 := (congrArg (fun p => p.1) hu3).symm
      subst h2
      subst h1
      simp [getToken, hv, hu]
    · intro e st3 tr3 hu3
      have h2 : err = some e := congrArg (fun p => p.2.1) hu3
      subst h2
      simp [getToken, hv, hu]

/-- C8 witness: at time 50 the prior token (refreshed at 1, lifetime 100)
is still valid and is returned with no network call; at time 200 it has
expired, and `getToken` performs one refresh and returns the new token. -/
theorem C8_witness :
    getToken auth0 statePrior 50 respOK
      = (Except.ok (statePrior.access_token, statePrior), [])
    ∧ (getToken auth0 statePrior 200 respOK).1
      = Except.ok ((update_access_token auth0 statePrior 200 respOK).1.access_token,
                   (update_access_token auth0 statePrior 200 respOK).1)
    ∧ ((getToken auth0 statePrior 200 respOK).2.filter Event.isPost).length = 1 := by
  have h1 := (C8_getToken_behaviour auth0 statePrior 50 respOK).1 rfl
  obtain ⟨-, h2b, h2c, -⟩ := (C8_getToken_behaviour auth0 statePrior 200 respOK).2 rfl
  exact ⟨h1, h2c _ _ rfl, h2b⟩

/-! ### C9 -/

/-- Registering a configuration at the end of the registry list makes it
findable when it was not registered before. -/
theorem findInstance_append_self (l : List (Config × Nat)) (cfg : Config) (i : Nat)
    (h : findInstance l cfg = none) :
    findInstance (l ++ [(cfg, i)]) cfg = some i := by
  induction l with
  | nil => simp [findInstance]
  | cons p rest ih =>
      obtain ⟨c, j⟩ := p
      by_cases hc : c = cfg
      · simp [findInstance, hc] at h
      · simp only [List.cons_append, findInstance, hc, if_false] at h ⊢
        exact ih h

/-- C9 (modelled from the spec): constructing the authenticator twice for
the same configuration yields the same shared instance, whatever the
registry held before — so all callers share one token state — and a
`getToken` against that shared state while its token is valid performs no
network call, so a credential set is fetched at most once while its token
remains valid. -/
theorem C9_singleton_by_config (r : Registry) (cfg : Config)
    (auth : Authenticator) (st : TokenState) (now : Nat) (resp : Response)
    (hv : isValid st now = true) :
    (constructAuthenticator (constructAuthenticator r cfg).2 cfg).1
      = (constructAuthenticator r cfg).1
    ∧ (getToken auth st now resp).2 = [] := by
  constructor
  · cases hfind : findInstance r.entries cfg with
    | some i => simp [constructAuthenticator, hfind]
    | none =>
        simp only [constructAuthenticator, hfind]
        rw [findInstance_append_self r.entries cfg r.nextId hfind]
  · simp [getToken, hv]

/-- C9 witness: from an empty registry, two constructions for `cfg0` yield
the one shared instance, and `getToken` on the shared still-valid token
state performs no network call. -/
theorem C9_witness :
    (constructAuthenticator (constructAuthenticator ⟨[], 0⟩ cfg0).2 cfg0).1
      = (constructAuthenticator ⟨[], 0⟩ cfg0).1
    ∧ (getToken auth0 statePrior 50 respOK).2 = [] :=
  C9_singleton_by_config ⟨[], 0⟩ cfg0 auth0 statePrior 50 respOK rfl

/-! ### C10 -/

/-- C10: on a successful refresh, an explicit `"expires_in": null` in the
body is stored as `None` even when a default expiration is configured — the
configured default is applied only when the `expires_in` key is entirely
missing from the response. -/
theorem C10_null_expires_in_beats_default (auth : Authenticator)
    (st st2 : TokenState) (now : Nat) (resp : Response)
    (fs : List (String × Json)) (tr : List Event)
    (hjson : resp.json = some (Json.obj fs))
    (h : update_access_token auth st now resp = (st2, none, tr)) :
    (fs.lookup "expires_in" = some Json.null → st2.expires_in = Json.null)
    ∧ (fs.lookup "expires_in" = none →
        st2.expires_in = jsonOfOptInt auth.default_expiration) := by
  obtain ⟨-, fs2, ds, tok, hjson2, hdata, htok, hst⟩ :=
    update_success_spec auth st now resp st2 tr h
  rw [hjson] at hjson2
  obtain rfl : fs2 = fs := by
    have := Option.some.injEq .. ▸ hjson2
    injection this.symm
  constructor
  · intro hv
    rw [hst]
    simp [hv]
  · intro hnone
    rw [hst]
    simp [hnone]

/-- C10 witness: with a configured default of 86400 seconds, an explicit
`"expires_in": null` is stored as `None` (the default is not applied),
while a body with no `expires_in` key stores the default. -/
theorem C10_witness :
    (update_access_token auth1 emptyState 2 respNullExp).1.expires_in = Json.null
    ∧ (update_access_token auth1 emptyState 2 respNoExp).1.expires_in
        = Json.num 86400 := by
  obtain ⟨h1, -⟩ :=
    C10_null_expires_in_beats_default auth1 emptyState _ 2 respNullExp
      [("data", Json.obj [("token", Json.str "T")]), ("expires_in", Json.null)] _ rfl rfl
  obtain ⟨-, h2⟩ :=
    C10_null_expires_in_beats_default auth1 emptyState _ 2 respNoExp
      [("data", Json.obj [("token", Json.str "T")])] _ rfl rfl
  exact ⟨h1 rfl, h2 rfl⟩

end TapPersonio
